import Mathlib

/-!
Verification development for the Chemnitz-Culture-Map frontend data-access
layer.  The definitions below are shallow embeddings of the TypeScript code in
`src/Frontend/src/services/api.ts` and the hooks file (`useApi`,
`useCulturalSites`, `useSearch`, …).  Stateful hook code is modelled as
explicit state passing / small trace machines; JavaScript objects and JSON
values are modelled by an inductive `JsValue`; the browser `Map` is modelled
as an insertion-ordered association list (`JsMap`).
-/

namespace ChemnitzMap

/-! ## JSON values (JavaScript objects crossing the API boundary)

`JsValue` models the JSON-like values the frontend receives and serializes.
Object fields carry their JavaScript insertion order, which is exactly the
order `JSON.stringify` serializes them in.
-/

inductive JsValue : Type where
  | null : JsValue
  | bool : Bool → JsValue
  | num : Int → JsValue
  | str : String → JsValue
  | arr : List JsValue → JsValue
  | obj : List (String × JsValue) → JsValue

/-- Decimal representation of a natural number (the digits `JSON.stringify`
produces for a non-negative integer). -/
def natRepr (n : Nat) : String :=
  if _h : n < 10 then String.mk [Nat.digitChar n]
  else natRepr (n / 10) ++ String.mk [Nat.digitChar (n % 10)]
  decreasing_by exact Nat.div_lt_self (by omega) (by omega)

/-- Decimal representation of an integer. -/
def intRepr (i : Int) : String :=
  if i < 0 then "-" ++ natRepr i.natAbs else natRepr i.natAbs

mutual

/-- Model of `JSON.stringify` on `JsValue` (string escaping is not modelled;
object fields are serialized in insertion order, as in JavaScript). -/
def jsonStringify : JsValue → String
  | JsValue.null => "null"
  | JsValue.bool true => "true"
  | JsValue.bool false => "false"
  | JsValue.num i => intRepr i
  | JsValue.str s => "\"" ++ s ++ "\""
  | JsValue.arr l => "[" ++ jsonStringifyList l ++ "]"
  | JsValue.obj l => "\x7b" ++ jsonStringifyObj l ++ "\x7d"

/-- Comma-separated serialization of an array body. -/
def jsonStringifyList : List JsValue → String
  | [] => ""
  | [v] => jsonStringify v
  | v :: rest => jsonStringify v ++ "," ++ jsonStringifyList rest

/-- Comma-separated serialization of an object body, in field order. -/
def jsonStringifyObj : List (String × JsValue) → String
  | [] => ""
  | [p] => "\"" ++ p.1 ++ "\":" ++ jsonStringify p.2
  | p :: rest => "\"" ++ p.1 ++ "\":" ++ jsonStringify p.2 ++ "," ++ jsonStringifyObj rest

end

/-- Property access `v.k` on a JSON value: `some` field value for an object
that has the field, otherwise `none` (JavaScript `undefined`). -/
def jsField (v : JsValue) (k : String) : Option JsValue :=
  match v with
  | JsValue.obj l => (l.find? (fun p => p.1 = k)).map (fun p => p.2)
  | _ => none

/-- JavaScript truthiness of a JSON value. -/
def jsTruthy : JsValue → Bool
  | JsValue.null => false
  | JsValue.bool b => b
  | JsValue.num i => i ≠ 0
  | JsValue.str s => s ≠ ""
  | JsValue.arr _ => true
  | JsValue.obj _ => true

/-- Whether `v.k` is an array (`Array.isArray(v.k)` in the source). -/
def isArrField (v : JsValue) (k : String) : Bool :=
  match jsField v k with
  | some (JsValue.arr _) => true
  | _ => false

/-! ## geoUtils (api.ts lines 651-675): coordinate conversion -/

/-- A MongoDB GeoJSON point as used by the frontend: a `type` tag and a
`(longitude, latitude)` coordinate pair. -/
structure MongoLocation where
  type : String
  coordinates : ℝ × ℝ

/-- `geoUtils.mongoLocationToLeaflet` (api.ts line 653): swaps the stored
`(lng, lat)` pair into Leaflet's `(lat, lng)` order. -/
def mongoLocationToLeaflet (location : MongoLocation) : ℝ × ℝ :=
  (location.coordinates.2, location.coordinates.1)

/-- `geoUtils.leafletToMongoLocation` (api.ts line 658): rebuilds a GeoJSON
point from a Leaflet `(lat, lng)` pair, storing `(lng, lat)`. -/
def leafletToMongoLocation (lat lng : ℝ) : MongoLocation :=
  ⟨"Point", (lng, lat)⟩

/-! ## tokenManager and the 401 response interceptor (api.ts lines 98-165) -/

/-- Browser `localStorage`, modelled as an association list from keys to
stored strings. -/
def Storage : Type := List (String × String)

/-- `localStorage.getItem`. -/
def lsGetItem (st : Storage) (k : String) : Option String :=
  (List.find? (fun e => e.1 = k) st).map (fun e => e.2)

/-- `localStorage.removeItem`. -/
def lsRemoveItem (st : Storage) (k : String) : Storage :=
  List.filter (fun e => e.1 ≠ k) st

/-- The fixed storage key of the auth token (api.ts line 99). -/
def TOKEN_KEY : String := "auth_token"

/-- The fixed storage key of the stored user record (api.ts line 100). -/
def USER_KEY : String := "auth_user"

/-- `tokenManager.removeToken` (api.ts lines 111-114): removes both the token
and the user record from storage. -/
def removeToken (st : Storage) : Storage :=
  lsRemoveItem (lsRemoveItem st TOKEN_KEY) USER_KEY

/-- The error object an axios response interceptor receives:
`error.response?.status` is `none` when no response arrived at all. -/
structure AxiosErrorModel where
  status : Option Nat
  message : String

/-- The response error interceptor (api.ts lines 153-164): on a 401 it clears
the token (and user record) and dispatches the `auth:logout` window event; in
every case the error is re-thrown (`Promise.reject(error)`), modelled by the
error being returned unchanged as the third component.  `events` is the list
of window events dispatched so far. -/
def responseErrorInterceptor (st : Storage) (events : List String)
    (err : AxiosErrorModel) : Storage × List String × AxiosErrorModel :=
  if err.status = some 401 then
    (removeToken st, events ++ ["auth:logout"], err)
  else
    (st, events, err)

/-! ## getCulturalSites / getParkingLots response-shape handling
(api.ts lines 257-283 and 302-324) -/

/-- The field projection `getCulturalSites` applies to each element of
`response.data.sites` (api.ts lines 263-278); absent fields are JavaScript
`undefined`, modelled as `none`. -/
structure SiteDto where
  id : Option JsValue
  name : Option JsValue
  category : Option JsValue
  description : Option JsValue
  address : Option JsValue
  location : Option JsValue
  website : Option JsValue
  phone : Option JsValue
  opening_hours : Option JsValue
  properties : Option JsValue
  source : Option JsValue
  source_id : Option JsValue
  created_at : Option JsValue
  updated_at : Option JsValue

/-- Element mapping of `getCulturalSites` (api.ts lines 263-278). -/
def extractSite (v : JsValue) : SiteDto :=
  ⟨jsField v "id", jsField v "name", jsField v "category", jsField v "description",
   jsField v "address", jsField v "location", jsField v "website", jsField v "phone",
   jsField v "opening_hours", jsField v "properties", jsField v "source",
   jsField v "source_id", jsField v "created_at", jsField v "updated_at"⟩

/-- The field projection `getParkingLots` applies to each element of
`response.data.parking_lots` (api.ts lines 308-319). -/
structure ParkingDto where
  id : Option JsValue
  name : Option JsValue
  location : Option JsValue
  parking_type : Option JsValue
  capacity : Option JsValue
  address : Option JsValue
  description : Option JsValue
  properties : Option JsValue
  created_at : Option JsValue
  updated_at : Option JsValue

/-- Element mapping of `getParkingLots` (api.ts lines 308-319). -/
def extractParking (v : JsValue) : ParkingDto :=
  ⟨jsField v "id", jsField v "name", jsField v "location", jsField v "parking_type",
   jsField v "capacity", jsField v "address", jsField v "description",
   jsField v "properties", jsField v "created_at", jsField v "updated_at"⟩

/-- Response handling of `getCulturalSites` (api.ts lines 262-282): if
`response.data` is truthy and `response.data.sites` is an array, map the site
projection over it; otherwise return the empty array. -/
def getCulturalSitesOfData (data : JsValue) : List SiteDto :=
  if jsTruthy data then
    match jsField data "sites" with
    | some (JsValue.arr l) => l.map extractSite
    | _ => []
  else []

/-- Response handling of `getParkingLots` (api.ts lines 307-323). -/
def getParkingLotsOfData (data : JsValue) : List ParkingDto :=
  if jsTruthy data then
    match jsField data "parking_lots" with
    | some (JsValue.arr l) => l.map extractParking
    | _ => []
  else []

/-! ## useSearch (hooks file lines 167-217): debounced search

The hook's visible state is `searchResults`, `loading` and `error`; the
`debounceTimeoutRef` together with the closure captured by `setTimeout` is
modelled as `pending`: the query/filter triple whose debounced invocation is
currently scheduled.  `searchCall` is the body of `search` up to scheduling;
`fireDebounce` is the timer callback firing, which is the point at which the
network request to `apiService.searchSites` is issued — the fired query is
appended to the network-call log `net`. -/

structure SearchHookState (α : Type) where
  searchResults : List α
  loading : Bool
  error : Option String
  pending : Option (String × Option String × Option String)

/-- JavaScript `String.prototype.trim`: strips leading and trailing
whitespace. -/
def jsTrim (s : String) : String :=
  String.mk (((s.data.dropWhile Char.isWhitespace).reverse.dropWhile
    Char.isWhitespace).reverse)

/-- The `search` callback of `useSearch` (hooks file lines 173-199): it first
clears any pending debounce timeout; if `query.trim()` is falsy (i.e. the
trimmed query is empty) it clears the results and returns; otherwise it
schedules the debounced invocation for this query. -/
def searchCall (st : SearchHookState α) (query : String)
    (category district : Option String) : SearchHookState α :=
  if jsTrim query = "" then
    { st with pending := none, searchResults := [] }
  else
    { st with pending := some (query, category, district) }

/-- The debounce timer firing (hooks file lines 185-198): the scheduled
closure sets `loading`, clears `error` and issues the network request for the
pending query, which is recorded in the network log. -/
def fireDebounce (st : SearchHookState α) (net : List String) :
    SearchHookState α × List String :=
  match st.pending with
  | none => (st, net)
  | some (q, _, _) =>
    ({ st with loading := true, error := none, pending := none }, net ++ [q])

/-- The `clearSearch` callback (hooks file lines 201-208). -/
def clearSearch (st : SearchHookState α) : SearchHookState α :=
  { st with pending := none, searchResults := [], error := none, loading := false }

/-! ## useApi (hooks file lines 21-78): generic fetch hook as a trace machine

A run of one `useApi` instance is driven by three kinds of events:
`start` is one invocation of `fetchData` (it aborts the previous
`AbortController`, installs a fresh one and sets the loading state, hooks
file lines 34-43); `resolve i r` is the fulfilment of the promise returned by
the `i`-th invocation's `apiCall()`; `reject i name msg` is its rejection.
`controllers` records, per started request in start order, whether its
`AbortController` has been aborted.

The crucial source fact (hooks file line 46) is that `apiCall` is a
zero-argument producer: the abort signal of the controller created for the
request is never passed to it, and neither continuation consults the
controller.  The model therefore applies the success continuation
(`setState` with the fresh result, line 47) whenever a started request
resolves, regardless of the aborted flag — exactly as the JavaScript does. -/

structure HookState (α : Type) where
  data : Option α
  loading : Bool
  error : Option String

structure UseApiRun (α : Type) where
  state : HookState α
  controllers : List Bool

inductive HookEvent (α : Type) where
  | start : HookEvent α
  | resolve : Nat → α → HookEvent α
  | reject : Nat → String → String → HookEvent α

/-- Set the aborted flag of the most recently created controller
(`abortControllerRef.current.abort()`, hooks file lines 36-38). -/
def markLastAborted : List Bool → List Bool
  | [] => []
  | [_] => [true]
  | b :: rest => b :: markLastAborted rest

/-- One event step of a `useApi` instance. -/
def stepUseApi (m : UseApiRun α) : HookEvent α → UseApiRun α
  | HookEvent.start =>
    ⟨⟨m.state.data, true, none⟩, markLastAborted m.controllers ++ [false]⟩
  | HookEvent.resolve i r =>
    if i < m.controllers.length then ⟨⟨some r, false, none⟩, m.controllers⟩ else m
  | HookEvent.reject i ename emsg =>
    if i < m.controllers.length then
      if ename = "AbortError" then m else ⟨⟨none, false, some emsg⟩, m.controllers⟩
    else m

/-- The initial state of a freshly mounted `useApi` instance (hooks file
lines 26-30): no data, loading, no error, no controller yet. -/
def initUseApi (α : Type) : UseApiRun α := ⟨⟨none, true, none⟩, []⟩

/-- Run a `useApi` instance over a list of events. -/
def runUseApi (evs : List (HookEvent α)) : UseApiRun α :=
  evs.foldl stepUseApi (initUseApi α)

/-! ## The browser Map and the useCulturalSites cache (hooks file lines 86-114)

`JsMap` models a JavaScript `Map` with string keys: an association list in
key insertion order.  `set` on an existing key updates it in place, otherwise
it appends; `keys().next().value` is the first entry's key. -/

structure JsMap (α : Type) where
  entries : List (String × α)

/-- `Map.prototype.get`. -/
def JsMap.get? (m : JsMap α) (k : String) : Option α :=
  (m.entries.find? (fun e => e.1 = k)).map (fun e => e.2)

/-- `Map.prototype.has` (a key is present exactly when `get` finds it). -/
def JsMap.has (m : JsMap α) (k : String) : Bool :=
  (m.get? k).isSome

/-- `Map.prototype.set`: update in place when present, else append. -/
def JsMap.set (m : JsMap α) (k : String) (v : α) : JsMap α :=
  if m.has k then ⟨m.entries.map (fun e => if e.1 = k then (k, v) else e)⟩
  else ⟨m.entries ++ [(k, v)]⟩

/-- `Map.prototype.delete`: removes the entry with the given key. -/
def JsMap.del (m : JsMap α) (k : String) : JsMap α :=
  ⟨m.entries.eraseP (fun e => e.1 = k)⟩

/-- `Map.prototype.size`. -/
def JsMap.size (m : JsMap α) : Nat := m.entries.length

/-- `map.keys().next().value`: the first inserted key, if any. -/
def JsMap.firstKey? (m : JsMap α) : Option String :=
  m.entries.head?.map (fun e => e.1)

/-- The keys in insertion order. -/
def JsMap.keys (m : JsMap α) : List String := m.entries.map (fun e => e.1)

def emptyJsMap (α : Type) : JsMap α := ⟨[]⟩

/-- The eviction step of `useCulturalSites` (hooks file lines 102-107): if
the cache now holds more than 10 entries, take the first key of the
iteration order (= oldest-inserted) and, when it is truthy (a JavaScript
string is falsy exactly when empty), delete it. -/
def evictIfOver10 (c : JsMap α) : JsMap α :=
  if c.size > 10 then
    match c.firstKey? with
    | some firstKey => if firstKey = "" then c else c.del firstKey
    | none => c
  else c

/-- The outcome of one completed fetch of the `useCulturalSites` producer:
the produced data, the cache afterwards, and whether a network call to
`apiService.getCulturalSites` was issued. -/
structure FetchOutcome (α : Type) where
  data : α
  cache : JsMap α
  networkCall : Bool

/-- The producer closure of `useCulturalSites` (hooks file lines 90-110):
the cache key is `JSON.stringify(params)`; on a hit the cached array is
returned with no network call; on a miss the backend is called, the result
stored, and the eviction step run.  `backend` abstracts
`apiService.getCulturalSites`. -/
def culturalSitesFetch (backend : JsValue → α) (cache : JsMap α)
    (params : JsValue) : FetchOutcome α :=
  match cache.get? (jsonStringify params) with
  | some cached => ⟨cached, cache, false⟩
  | none =>
    ⟨backend params,
     evictIfOver10 (cache.set (jsonStringify params) (backend params)),
     true⟩

/-- Two successive fetches through the same hook instance's cache, counting
the network calls issued. -/
def culturalSitesTwoCalls (backend : JsValue → α) (cache : JsMap α)
    (p1 p2 : JsValue) : Nat :=
  (cond (culturalSitesFetch backend cache p1).networkCall 1 0) +
  (cond (culturalSitesFetch backend
    (culturalSitesFetch backend cache p1).cache p2).networkCall 1 0)

/-- A sequence of completed fetches through one hook instance's cache. -/
def culturalSitesRun (backend : JsValue → α) (cache : JsMap α) :
    List JsValue → JsMap α
  | [] => cache
  | p :: rest =>
    culturalSitesRun backend (culturalSitesFetch backend cache p).cache rest

/-! ## findParkingNearSites (api.ts lines 460-582) and geoUtils.calculateDistance

The REST backend's per-site nearby query is abstracted as an oracle from
`(lat, lng, radius, limit)` to either a failure or a parking-lot list; the
aggregator also returns the list of nearby queries it issued (its network
calls), in order. -/

structure GeoLoc where
  coordinates : ℝ × ℝ

structure CulturalSite where
  id : String
  name : String
  location : Option GeoLoc

structure ParkingLot where
  id : String
  name : String
  location : Option GeoLoc
  parking_type : String

structure ParkingConnection where
  siteId : String
  parkingId : String
  distance : ℝ

structure ParkingSearchResult where
  parkingLots : List ParkingLot
  connections : List ParkingConnection

structure NearbyQuery where
  lat : ℝ
  lng : ℝ
  radius : ℝ
  limit : Nat

def NearbyOracle : Type :=
  ℝ → ℝ → ℝ → Nat → Except String (List ParkingLot)

/-- JavaScript `Math.atan2(y, x)` over the reals (signed zero is not
modelled; `atan2 0 0 = 0`). -/
noncomputable def atan2 (y x : ℝ) : ℝ :=
  if 0 < x then Real.arctan (y / x)
  else if x < 0 then
    (if 0 ≤ y then Real.arctan (y / x) + Real.pi
     else Real.arctan (y / x) - Real.pi)
  else
    (if 0 < y then Real.pi / 2 else if y < 0 then -(Real.pi / 2) else 0)

/-- `geoUtils.calculateDistance` (api.ts lines 666-675): haversine-style
great-circle distance in kilometers. -/
noncomputable def calculateDistance (lat1 lng1 lat2 lng2 : ℝ) : ℝ :=
  let R : ℝ := 6371
  let dLat := (lat2 - lat1) * Real.pi / 180
  let dLng := (lng2 - lng1) * Real.pi / 180
  let a := Real.sin (dLat / 2) * Real.sin (dLat / 2) +
    Real.cos (lat1 * Real.pi / 180) * Real.cos (lat2 * Real.pi / 180) *
    Real.sin (dLng / 2) * Real.sin (dLng / 2)
  let c := 2 * atan2 (Real.sqrt a) (Real.sqrt (1 - a))
  R * c

/-- One candidate tuple pushed to `allNearbyParking` (api.ts lines 513-517). -/
structure NearbyCandidate where
  parking : ParkingLot
  siteId : String
  distance : ℝ

/-- The parking-type allow-list filter (api.ts line 504): a lot is skipped
exactly when an allow-list was supplied, it is non-empty, and the lot's type
is not in it. -/
def parkingTypeRejected (parkingTypes : Option (List String))
    (p : ParkingLot) : Bool :=
  match parkingTypes with
  | none => false
  | some ts => !ts.isEmpty && !ts.contains p.parking_type

/-- The inner loop over one site's nearby parking lots (api.ts lines
502-519): filter by type, require a coordinate pair, and record the
candidate with the client-side distance in meters. -/
noncomputable def processSiteLots (parkingTypes : Option (List String))
    (siteId : String) (lat lng : ℝ) : List ParkingLot → List NearbyCandidate
  | [] => []
  | parking :: rest =>
    if parkingTypeRejected parkingTypes parking then
      processSiteLots parkingTypes siteId lat lng rest
    else
      match parking.location with
      | some loc =>
        ⟨parking, siteId,
          calculateDistance lat lng loc.coordinates.2 loc.coordinates.1 * 1000⟩
          :: processSiteLots parkingTypes siteId lat lng rest
      | none => processSiteLots parkingTypes siteId lat lng rest

/-- The outer loop over the input sites (api.ts lines 484-523): a site
without a coordinate pair is skipped with no query; otherwise one nearby
query is issued with the radius converted to meters and a per-site cap of
20; a failing query is caught and processing continues with the remaining
sites. -/
noncomputable def collectNearby (oracle : NearbyOracle) (radiusKm : ℝ)
    (parkingTypes : Option (List String)) :
    List CulturalSite → List NearbyCandidate × List NearbyQuery
  | [] => ([], [])
  | site :: rest =>
    match site.location with
    | none => collectNearby oracle radiusKm parkingTypes rest
    | some loc =>
      match oracle loc.coordinates.2 loc.coordinates.1 (radiusKm * 1000) 20 with
      | Except.error _ =>
        ((collectNearby oracle radiusKm parkingTypes rest).1,
         ⟨loc.coordinates.2, loc.coordinates.1, radiusKm * 1000, 20⟩ ::
           (collectNearby oracle radiusKm parkingTypes rest).2)
      | Except.ok lots =>
        (processSiteLots parkingTypes site.id loc.coordinates.2 loc.coordinates.1
            lots ++ (collectNearby oracle radiusKm parkingTypes rest).1,
         ⟨loc.coordinates.2, loc.coordinates.1, radiusKm * 1000, 20⟩ ::
           (collectNearby oracle radiusKm parkingTypes rest).2)

/-- One entry of `uniqueParkingMap` (api.ts lines 526-529). -/
structure DedupEntry where
  key : String
  parking : ParkingLot
  nearestSites : List (String × ℝ)

/-- One step of the de-duplication loop (api.ts lines 531-547): if the
candidate's parking id is already a key, push the (site, distance) pair onto
that entry; otherwise append a fresh entry at the end. -/
def addCand : List DedupEntry → NearbyCandidate → List DedupEntry
  | [], c => [⟨c.parking.id, c.parking, [(c.siteId, c.distance)]⟩]
  | e :: rest, c =>
    if c.parking.id = e.key then
      ⟨e.key, e.parking, e.nearestSites ++ [(c.siteId, c.distance)]⟩ :: rest
    else e :: addCand rest c

/-- De-duplicate the candidate list by parking-lot id, in first-seen order. -/
def dedupParking (cands : List NearbyCandidate) : List DedupEntry :=
  cands.foldl addCand []

/-- The final result assembly (api.ts lines 549-568): one parking lot per
entry and one connection record per (site, lot) association. -/
def buildParkingResult (entries : List DedupEntry) : ParkingSearchResult :=
  ⟨entries.map (fun e => e.parking),
   entries.flatMap (fun e => e.nearestSites.map (fun s =>
     (⟨s.1, e.key, s.2⟩ : ParkingConnection)))⟩

/-- `findParkingNearSites` (api.ts lines 460-582): an empty input list
short-circuits to the empty result with no queries issued; otherwise the
candidates are collected per site, de-duplicated and assembled.  The second
component is the list of nearby queries issued to the backend. -/
noncomputable def findParkingNearSites (oracle : NearbyOracle)
    (culturalSites : List CulturalSite) (radiusKm : ℝ := 1)
    (parkingTypes : Option (List String) := none) :
    ParkingSearchResult × List NearbyQuery :=
  if culturalSites.isEmpty then (⟨[], []⟩, [])
  else
    ((buildParkingResult (dedupParking
        (collectNearby oracle radiusKm parkingTypes culturalSites).1)),
     (collectNearby oracle radiusKm parkingTypes culturalSites).2)

/-! ## Concrete data used in evaluation witnesses -/

/-- Eleven parameter objects with pairwise distinct serialized forms. -/
def elevenParams : List JsValue :=
  [JsValue.obj [("district", JsValue.str "d0")],
   JsValue.obj [("district", JsValue.str "d1")],
   JsValue.obj [("district", JsValue.str "d2")],
   JsValue.obj [("district", JsValue.str "d3")],
   JsValue.obj [("district", JsValue.str "d4")],
   JsValue.obj [("district", JsValue.str "d5")],
   JsValue.obj [("district", JsValue.str "d6")],
   JsValue.obj [("district", JsValue.str "d7")],
   JsValue.obj [("district", JsValue.str "d8")],
   JsValue.obj [("district", JsValue.str "d9")],
   JsValue.obj [("district", JsValue.str "d10")]]

/-- A cultural site at the origin. -/
def siteA : CulturalSite := ⟨"siteA", "Museum A", some ⟨((0 : ℝ), (0 : ℝ))⟩⟩

/-- A second, distinct cultural site. -/
def siteB : CulturalSite := ⟨"siteB", "Museum B", some ⟨((0 : ℝ), (0 : ℝ))⟩⟩

/-- A site without a usable coordinate pair. -/
def siteNoCoords : CulturalSite := ⟨"siteN", "No coords", none⟩

/-- A parking lot at the origin. -/
def lotP : ParkingLot := ⟨"lotP", "Parkplatz P", some ⟨((0 : ℝ), (0 : ℝ))⟩, "bus"⟩

/-- A backend oracle that always returns exactly `lotP`. -/
def oracleP : NearbyOracle := fun _ _ _ _ => Except.ok [lotP]

/-- A backend oracle that always fails. -/
def oracleDown : NearbyOracle := fun _ _ _ _ => Except.error "offline"

/-! ## Theorems for C6, C9, C10 -/

/-- C6: for every valid (longitude, latitude) coordinate pair, converting it
to (latitude, longitude) order with `mongoLocationToLeaflet` and back with
`leafletToMongoLocation` yields the original coordinate pair. -/
theorem geo_roundtrip_identity (loc : MongoLocation) :
    (leafletToMongoLocation (mongoLocationToLeaflet loc).1
      (mongoLocationToLeaflet loc).2).coordinates = loc.coordinates := by
  rfl

/-- C9: every response error with HTTP status 401 causes the stored auth
token and user record to be removed from storage, appends the application
wide `auth:logout` event, and still propagates the error to the caller. -/
theorem response401_clears_token_and_signals_logout
    (st : Storage) (events : List String) (err : AxiosErrorModel)
    (h : err.status = some 401) :
    lsGetItem (responseErrorInterceptor st events err).1 TOKEN_KEY = none ∧
    lsGetItem (responseErrorInterceptor st events err).1 USER_KEY = none ∧
    (responseErrorInterceptor st events err).2.1 = events ++ ["auth:logout"] ∧
    (responseErrorInterceptor st events err).2.2 = err := by
  have hTok : lsGetItem (removeToken st) TOKEN_KEY = none := by
    unfold removeToken lsRemoveItem lsGetItem
    have hn : List.find? (fun e => e.1 = TOKEN_KEY)
        (List.filter (fun e => e.1 ≠ USER_KEY)
          (List.filter (fun e => e.1 ≠ TOKEN_KEY) st)) = none := by
      rw [List.find?_eq_none]
      intro x hx
      have hx1 := List.of_mem_filter (List.mem_of_mem_filter hx)
      simpa using hx1
    rw [hn]
    rfl
  have hUsr : lsGetItem (removeToken st) USER_KEY = none := by
    unfold removeToken lsRemoveItem lsGetItem
    have hn : List.find? (fun e => e.1 = USER_KEY)
        (List.filter (fun e => e.1 ≠ USER_KEY)
          (List.filter (fun e => e.1 ≠ TOKEN_KEY) st)) = none := by
      rw [List.find?_eq_none]
      intro x hx
      have hx1 := List.of_mem_filter hx
      simpa using hx1
    rw [hn]
    rfl
  refine ⟨?_, ?_, ?_, ?_⟩ <;> simp [responseErrorInterceptor, h, hTok, hUsr]

/-- C9 witness: a concrete 401 error against a storage holding a token and a
user record. -/
theorem response401_clears_token_and_signals_logout_witness :
    (some 401 = some 401) ∧
    (lsGetItem (responseErrorInterceptor
        [("auth_token", "tok"), ("auth_user", "u"), ("other", "x")] []
        ⟨some 401, "Unauthorized"⟩).1 TOKEN_KEY = none ∧
     lsGetItem (responseErrorInterceptor
        [("auth_token", "tok"), ("auth_user", "u"), ("other", "x")] []
        ⟨some 401, "Unauthorized"⟩).1 USER_KEY = none ∧
     (responseErrorInterceptor
        [("auth_token", "tok"), ("auth_user", "u"), ("other", "x")] []
        ⟨some 401, "Unauthorized"⟩).2.1 = [] ++ ["auth:logout"] ∧
     (responseErrorInterceptor
        [("auth_token", "tok"), ("auth_user", "u"), ("other", "x")] []
        ⟨some 401, "Unauthorized"⟩).2.2 = ⟨some 401, "Unauthorized"⟩) :=
  ⟨rfl, response401_clears_token_and_signals_logout
    [("auth_token", "tok"), ("auth_user", "u"), ("other", "x")] []
    ⟨some 401, "Unauthorized"⟩ rfl⟩

/-- C10: whenever the response body is not a truthy object whose `sites`
(resp. `parking_lots`) field is an array, `getCulturalSites` (resp.
`getParkingLots`) returns the empty array. -/
theorem malformed_shape_yields_empty (d e : JsValue)
    (h1 : (jsTruthy d && isArrField d "sites") = false)
    (h2 : (jsTruthy e && isArrField e "parking_lots") = false) :
    getCulturalSitesOfData d = [] ∧ getParkingLotsOfData e = [] := by
  constructor
  · unfold getCulturalSitesOfData
    rcases hb : jsTruthy d with _ | _
    · simp
    · simp only [if_pos rfl]
      rw [hb] at h1
      simp only [Bool.true_and] at h1
      unfold isArrField at h1
      rcases hf : jsField d "sites" with _ | v
      · simp
      · rcases v with _ | b | i | s | l | l <;> simp_all
  · unfold getParkingLotsOfData
    rcases hb : jsTruthy e with _ | _
    · simp
    · simp only [if_pos rfl]
      rw [hb] at h2
      simp only [Bool.true_and] at h2
      unfold isArrField at h2
      rcases hf : jsField e "parking_lots" with _ | v
      · simp
      · rcases v with _ | b | i | s | l | l <;> simp_all

/-- C10 witness: a response whose `sites` field is a string, and a null
parking response, both map to the empty array. -/
theorem malformed_shape_yields_empty_witness :
    ((jsTruthy (JsValue.obj [("sites", JsValue.str "oops")]) &&
        isArrField (JsValue.obj [("sites", JsValue.str "oops")]) "sites") = false) ∧
    ((jsTruthy JsValue.null && isArrField JsValue.null "parking_lots") = false) ∧
    (getCulturalSitesOfData (JsValue.obj [("sites", JsValue.str "oops")]) = [] ∧
     getParkingLotsOfData JsValue.null = []) :=
  ⟨by decide, by decide,
   malformed_shape_yields_empty (JsValue.obj [("sites", JsValue.str "oops")])
     JsValue.null (by decide) (by decide)⟩

/-! ## Theorems for C1 and C2 -/

/-- C1 (evaluation at the failing trace): two `fetchData` invocations in
rapid succession, after which request 1 (the newer) resolves with
`"second"` and only then request 0 (the older) resolves with `"first"`.
The older request's controller was indeed aborted (`controllers = [true,
false]`), but because the abort signal is never passed to `apiCall`, the
stale success continuation still runs and the hook's visible data ends up
being the older request's result `"first"` — contradicting the claim that
only the most recently initiated request's result can reach visible state. -/
theorem useApi_stale_result_overwrites_newer :
    (runUseApi [HookEvent.start, HookEvent.start,
      HookEvent.resolve 1 "second", HookEvent.resolve 0 "first"]).controllers
        = [true, false] ∧
    (runUseApi [HookEvent.start, HookEvent.start,
      HookEvent.resolve 1 "second", HookEvent.resolve 0 "first"]).state.data
        = some "first" ∧
    some "first" ≠ some "second" := by
  refine ⟨rfl, rfl, by decide⟩

/-- C2 (counterexample): calling `search` with the single-character query
`"a"` on a state holding existing results is not a no-op: the existing
results are left in place (not cleared), a debounced invocation is scheduled,
and when the debounce timer fires a network call for `"a"` is issued. -/
theorem search_single_char_not_a_noop :
    (searchCall (⟨[7], false, none, none⟩ : SearchHookState Nat)
        "a" none none).searchResults = [7] ∧
    (searchCall (⟨[7], false, none, none⟩ : SearchHookState Nat)
        "a" none none).pending = some ("a", none, none) ∧
    (fireDebounce (searchCall (⟨[7], false, none, none⟩ : SearchHookState Nat)
        "a" none none) []).2 = ["a"] := by
  have hne : ¬ (jsTrim "a" = "") := by decide
  refine ⟨rfl, ?_, ?_⟩ <;> simp [searchCall, fireDebounce, hne]

/-- C2 (amended): calling `search` with a query whose trimmed form is empty
(the empty string or whitespace-only) clears any existing results, cancels
any pending debounced invocation, and issues no network call — the debounce
timer firing afterwards leaves the network log unchanged.  (A one-character
query such as `"a"` is not covered: the code only guards on
`!query.trim()`, so any non-blank query is debounced and sent.) -/
theorem search_blank_query_clears_and_no_call (α : Type) (st : SearchHookState α)
    (query : String) (category district : Option String) (net : List String)
    (h : jsTrim query = "") :
    searchCall st query category district = ⟨[], st.loading, st.error, none⟩ ∧
    fireDebounce (searchCall st query category district) net
      = (⟨[], st.loading, st.error, none⟩, net) := by
  constructor
  · unfold searchCall
    rw [if_pos h]
  · unfold searchCall
    rw [if_pos h]
    rfl

/-- C2 witness: the empty query on a state with existing results, a pending
debounce and an error set. -/
theorem search_blank_query_clears_and_no_call_witness :
    jsTrim "" = "" ∧
    (searchCall (⟨[3], true, some "boom", some ("old", none, none)⟩ :
        SearchHookState Nat) "" none none
      = ⟨[], true, some "boom", none⟩ ∧
     fireDebounce (searchCall (⟨[3], true, some "boom", some ("old", none, none)⟩ :
        SearchHookState Nat) "" none none) []
      = (⟨[], true, some "boom", none⟩, [])) :=
  ⟨rfl, search_blank_query_clears_and_no_call Nat
    ⟨[3], true, some "boom", some ("old", none, none)⟩ "" none none [] rfl⟩

/-! ## Helper lemmas about `JsMap` and `jsonStringify` -/

theorem natRepr_length_pos (n : Nat) : 0 < (natRepr n).length := by
  unfold natRepr
  split
  · exact Nat.one_pos
  · rw [String.length_append]
    have h1 : (String.mk [Nat.digitChar (n % 10)]).length = 1 := rfl
    omega

theorem intRepr_length_pos (i : Int) : 0 < (intRepr i).length := by
  unfold intRepr
  split
  · rw [String.length_append]
    have := natRepr_length_pos i.natAbs
    omega
  · exact natRepr_length_pos i.natAbs

theorem jsonStringify_length_pos (v : JsValue) : 0 < (jsonStringify v).length := by
  cases v with
  | null => decide
  | bool b => cases b <;> decide
  | num i => simpa [jsonStringify] using intRepr_length_pos i
  | str s =>
    simp only [jsonStringify, String.length_append]
    have h1 : ("\"" : String).length = 1 := rfl
    omega
  | arr l =>
    simp only [jsonStringify, String.length_append]
    have h1 : ("[" : String).length = 1 := rfl
    omega
  | obj l =>
    simp only [jsonStringify, String.length_append]
    have h1 : ("\x7b" : String).length = 1 := rfl
    omega

theorem jsonStringify_ne_empty (v : JsValue) : jsonStringify v ≠ "" := by
  intro h
  have hpos := jsonStringify_length_pos v
  rw [h] at hpos
  simp at hpos

theorem get?_none_forall {α : Type} (m : JsMap α) (k : String)
    (h : m.get? k = none) : ∀ e ∈ m.entries, e.1 ≠ k := by
  unfold JsMap.get? at h
  have hf := Option.map_eq_none'.mp h
  rw [List.find?_eq_none] at hf
  intro e he
  have := hf e he
  simpa using this

theorem set_of_get?_none {α : Type} (m : JsMap α) (k : String) (v : α)
    (h : m.get? k = none) : m.set k v = ⟨m.entries ++ [(k, v)]⟩ := by
  unfold JsMap.set JsMap.has
  rw [h]
  rfl

theorem get?_set_fresh {α : Type} (m : JsMap α) (k : String) (v : α)
    (h : m.get? k = none) : (m.set k v).get? k = some v := by
  rw [set_of_get?_none m k v h]
  unfold JsMap.get? at h ⊢
  rw [List.find?_append]
  have hf := Option.map_eq_none'.mp h
  rw [hf]
  simp

theorem find?_eraseP_key_ne {α : Type} (l : List (String × α)) (k fk : String)
    (h : fk ≠ k) :
    (l.eraseP (fun e => e.1 = fk)).find? (fun e => e.1 = k)
      = l.find? (fun e => e.1 = k) := by
  induction l with
  | nil => rfl
  | cons e rest ih =>
    by_cases he : e.1 = fk
    · rw [List.eraseP_cons_of_pos (by simp [he])]
      have hek : ¬ (e.1 = k) := by rw [he]; exact h
      rw [List.find?_cons_of_neg _ (by simpa using hek)]
    · rw [List.eraseP_cons_of_neg (by simp [he])]
      by_cases hk : e.1 = k
      · rw [List.find?_cons_of_pos _ (by simpa using hk),
          List.find?_cons_of_pos _ (by simpa using hk)]
      · rw [List.find?_cons_of_neg _ (by simpa using hk),
          List.find?_cons_of_neg _ (by simpa using hk), ih]

theorem get?_after_miss_store {α : Type} (cache : JsMap α) (k : String) (r : α)
    (h : cache.get? k = none) :
    (evictIfOver10 (cache.set k r)).get? k = some r := by
  have hget1 : (cache.set k r).get? k = some r := get?_set_fresh cache k r h
  rw [set_of_get?_none cache k r h] at hget1 ⊢
  unfold evictIfOver10
  split
  · rename_i hsz
    cases hc : cache.entries with
    | nil =>
      rw [hc] at hsz
      simp [JsMap.size] at hsz
    | cons e0 tl =>
      rw [hc] at hget1
      show (if e0.1 = "" then (⟨e0 :: tl ++ [(k, r)]⟩ : JsMap α)
          else (⟨e0 :: tl ++ [(k, r)]⟩ : JsMap α).del e0.1).get? k = some r
      by_cases h0 : e0.1 = ""
      · rw [if_pos h0]
        exact hget1
      · rw [if_neg h0]
        have hne : e0.1 ≠ k :=
          get?_none_forall cache k h e0 (by rw [hc]; exact List.mem_cons_self e0 tl)
        unfold JsMap.get? at hget1
        unfold JsMap.del JsMap.get?
        rw [find?_eraseP_key_ne _ _ _ hne]
        exact hget1
  · exact hget1

/-! ## Theorems for C3, C5, C7 -/

/-- C7: the empty input site list short-circuits: the result is the empty
parking-lot/connection record and no nearby query is issued. -/
theorem findParkingNearSites_empty_short_circuit (oracle : NearbyOracle)
    (radiusKm : ℝ) (parkingTypes : Option (List String)) :
    findParkingNearSites oracle [] radiusKm parkingTypes
      = (⟨[], []⟩, []) := rfl

/-- C3 (counterexample): the two parameter objects hold the same key-value
pairs and differ only in key insertion order, yet two successive calls
through a fresh `useCulturalSites` cache issue two network calls — the
second call is a cache miss, because `JSON.stringify` serializes fields in
insertion order and the two serialized cache keys differ. -/
theorem useCulturalSites_keyOrder_two_calls :
    List.Perm [("category", JsValue.str "museum"), ("district", JsValue.str "kassberg")]
      [("district", JsValue.str "kassberg"), ("category", JsValue.str "museum")] ∧
    ¬ (culturalSitesTwoCalls (fun _ => ([] : List Nat)) (emptyJsMap (List Nat))
        (JsValue.obj [("category", JsValue.str "museum"), ("district", JsValue.str "kassberg")])
        (JsValue.obj [("district", JsValue.str "kassberg"), ("category", JsValue.str "museum")])
        ≤ 1) := by
  constructor
  · exact List.Perm.swap _ _ _
  · decide

/-- C3 (amended): two successive calls through the same `useCulturalSites`
cache with the *same* parameter object (hence the same serialized cache key)
issue at most one network call: the second call is a cache hit.  Parameter
objects that differ in key insertion order serialize differently and are
distinct cache keys, so they do not enjoy this guarantee. -/
theorem useCulturalSites_sameParams_at_most_one_call (α : Type)
    (backend : JsValue → α) (cache : JsMap α) (p : JsValue) :
    culturalSitesTwoCalls backend cache p p ≤ 1 := by
  unfold culturalSitesTwoCalls
  rcases h : cache.get? (jsonStringify p) with _ | v
  · have h1 : culturalSitesFetch backend cache p
        = ⟨backend p, evictIfOver10 (cache.set (jsonStringify p) (backend p)), true⟩ := by
      unfold culturalSitesFetch
      rw [h]
    have hget2 : (evictIfOver10 (cache.set (jsonStringify p) (backend p))).get?
        (jsonStringify p) = some (backend p) :=
      get?_after_miss_store cache (jsonStringify p) (backend p) h
    have h2 : culturalSitesFetch backend
        (evictIfOver10 (cache.set (jsonStringify p) (backend p))) p
        = ⟨backend p, evictIfOver10 (cache.set (jsonStringify p) (backend p)), false⟩ := by
      unfold culturalSitesFetch
      rw [hget2]
    rw [h1]
    simp only [h2]
    decide
  · have h1 : culturalSitesFetch backend cache p = ⟨v, cache, false⟩ := by
      unfold culturalSitesFetch
      rw [h]
    rw [h1]
    simp only [h1]
    simp

theorem culturalSitesRun_append {α : Type} (backend : JsValue → α) (c : JsMap α)
    (xs ys : List JsValue) :
    culturalSitesRun backend c (xs ++ ys)
      = culturalSitesRun backend (culturalSitesRun backend c xs) ys := by
  induction xs generalizing c with
  | nil => rfl
  | cons p rest ih =>
    simp only [List.cons_append, culturalSitesRun]
    exact ih _

theorem culturalSitesRun_fresh {α : Type} (backend : JsValue → α) (ps : List JsValue) :
    ∀ (c : JsMap α),
      (∀ p ∈ ps, c.get? (jsonStringify p) = none) →
      (ps.map jsonStringify).Nodup →
      c.size + ps.length ≤ 10 →
      (culturalSitesRun backend c ps).entries
        = c.entries ++ ps.map (fun p => (jsonStringify p, backend p)) := by
  induction ps with
  | nil =>
    intro c _ _ _
    simp [culturalSitesRun]
  | cons p rest ih =>
    intro c hfresh hnd hsz
    have hp : c.get? (jsonStringify p) = none := hfresh p (List.mem_cons_self p rest)
    have hstep : culturalSitesFetch backend c p
        = ⟨backend p, ⟨c.entries ++ [(jsonStringify p, backend p)]⟩, true⟩ := by
      unfold culturalSitesFetch
      rw [hp, set_of_get?_none c _ _ hp]
      unfold evictIfOver10
      rw [if_neg]
      unfold JsMap.size at hsz ⊢
      rw [List.length_append]
      simp only [List.length_cons] at hsz
      simp only [List.length_cons, List.length_nil]
      omega
    rw [List.map_cons, List.nodup_cons] at hnd
    have hfresh' : ∀ q ∈ rest,
        (⟨c.entries ++ [(jsonStringify p, backend p)]⟩ : JsMap α).get?
          (jsonStringify q) = none := by
      intro q hq
      have h1 : List.find? (fun e => e.1 = jsonStringify q) c.entries = none := by
        have h2 := hfresh q (List.mem_cons_of_mem p hq)
        unfold JsMap.get? at h2
        exact Option.map_eq_none'.mp h2
      have hne : jsonStringify p ≠ jsonStringify q := by
        intro he
        exact hnd.1 (he ▸ List.mem_map_of_mem jsonStringify hq)
      unfold JsMap.get?
      rw [List.find?_append, h1, Option.none_or,
        List.find?_cons_of_neg _ (by simpa using hne)]
      rfl
    show (culturalSitesRun backend (culturalSitesFetch backend c p).cache rest).entries = _
    rw [hstep]
    rw [ih ⟨c.entries ++ [(jsonStringify p, backend p)]⟩ hfresh' hnd.2 (by
      unfold JsMap.size at hsz ⊢
      rw [List.length_append]
      simp only [List.length_cons] at hsz
      simp only [List.length_cons, List.length_nil]
      omega)]
    simp [List.append_assoc]

theorem culturalSitesFetch_capacity {α : Type} (backend : JsValue → α)
    (c : JsMap α) (p : JsValue) (hk : "" ∉ c.keys) (hle : c.size ≤ 10) :
    (culturalSitesFetch backend c p).cache.size ≤ 10 := by
  rcases h : c.get? (jsonStringify p) with _ | v
  · have h1 : culturalSitesFetch backend c p
        = ⟨backend p, evictIfOver10 (c.set (jsonStringify p) (backend p)), true⟩ := by
      unfold culturalSitesFetch
      rw [h]
    rw [h1, set_of_get?_none c _ _ h]
    show (evictIfOver10 (⟨c.entries ++ [(jsonStringify p, backend p)]⟩ : JsMap α)).size ≤ 10
    unfold evictIfOver10
    by_cases hsz : (⟨c.entries ++ [(jsonStringify p, backend p)]⟩ : JsMap α).size > 10
    · rw [if_pos hsz]
      have hlen : c.entries.length = 10 := by
        unfold JsMap.size at hsz hle
        rw [List.length_append] at hsz
        simp only [List.length_cons, List.length_nil] at hsz
        omega
      have hcne : c.entries ≠ [] := by
        intro h0
        rw [h0] at hlen
        simp at hlen
      obtain ⟨e0, tl, hc⟩ := List.exists_cons_of_ne_nil hcne
      rw [hc]
      show ((if e0.1 = "" then (⟨(e0 :: tl) ++ [(jsonStringify p, backend p)]⟩ : JsMap α)
          else (⟨(e0 :: tl) ++ [(jsonStringify p, backend p)]⟩ : JsMap α).del e0.1)).size ≤ 10
      have h0 : e0.1 ≠ "" := by
        intro h0
        apply hk
        unfold JsMap.keys
        rw [hc, ← h0]
        exact List.mem_map_of_mem _ (List.mem_cons_self e0 tl)
      rw [if_neg h0]
      unfold JsMap.del JsMap.size
      rw [List.cons_append, List.eraseP_cons_of_pos (by simp)]
      rw [List.length_append]
      have htl : tl.length = 9 := by
        rw [hc] at hlen
        simp only [List.length_cons] at hlen
        omega
      simp [htl]
    · rw [if_neg hsz]
      unfold JsMap.size at hsz ⊢
      omega
  · have h1 : culturalSitesFetch backend c p = ⟨v, c, false⟩ := by
      unfold culturalSitesFetch
      rw [h]
    rw [h1]
    exact hle

/-- C5: inserting 11 parameter objects with pairwise distinct serialized
cache keys into a fresh `useCulturalSites` cache leaves exactly 10 entries,
with precisely the first-inserted key evicted (the surviving keys are the
11-key list minus its head, in order); moreover a completed fetch never
grows a within-capacity cache beyond 10 entries. -/
theorem useCulturalSites_capacity10_evicts_oldest (α : Type)
    (backend : JsValue → α) (ps : List JsValue) (c : JsMap α) (p : JsValue)
    (h11 : ps.length = 11) (hnd : (ps.map jsonStringify).Nodup)
    (hk : "" ∉ c.keys) (hle : c.size ≤ 10) :
    (culturalSitesRun backend (emptyJsMap α) ps).keys
        = (ps.map jsonStringify).drop 1 ∧
    (culturalSitesRun backend (emptyJsMap α) ps).size = 10 ∧
    (culturalSitesFetch backend c p).cache.size ≤ 10 := by
  have hne : ps ≠ [] := by
    intro h0
    rw [h0] at h11
    simp at h11
  obtain ⟨xs, x, hsplit⟩ : ∃ xs x, ps = xs ++ [x] :=
    ⟨ps.dropLast, ps.getLast hne, (List.dropLast_append_getLast hne).symm⟩
  subst hsplit
  have hxs : xs.length = 10 := by
    rw [List.length_append] at h11
    simp only [List.length_cons, List.length_nil] at h11
    omega
  have hxsne : xs ≠ [] := by
    intro h0
    rw [h0] at hxs
    simp at hxs
  obtain ⟨x0, xtl, hxc⟩ := List.exists_cons_of_ne_nil hxsne
  subst hxc
  have hxtl : xtl.length = 9 := by
    simp only [List.length_cons] at hxs
    omega
  rw [List.map_append] at hnd
  have hnd2 := List.nodup_append.mp hnd
  have hfresh0 : ∀ q ∈ (x0 :: xtl), (emptyJsMap α).get? (jsonStringify q) = none :=
    fun q _ => rfl
  have h10 : (culturalSitesRun backend (emptyJsMap α) (x0 :: xtl)).entries
      = (x0 :: xtl).map (fun q => (jsonStringify q, backend q)) := by
    have hfr := culturalSitesRun_fresh backend (x0 :: xtl) (emptyJsMap α)
      hfresh0 hnd2.1 (by simp [emptyJsMap, JsMap.size, List.length_cons, hxtl])
    simpa [emptyJsMap] using hfr
  have hgetx : (culturalSitesRun backend (emptyJsMap α) (x0 :: xtl)).get?
      (jsonStringify x) = none := by
    unfold JsMap.get?
    rw [h10, Option.map_eq_none', List.find?_eq_none]
    intro e he
    obtain ⟨q, hq, rfl⟩ := List.mem_map.mp he
    simp only [decide_eq_true_eq]
    intro heq
    exact hnd2.2.2 (List.mem_map_of_mem jsonStringify hq)
      (by rw [heq]; exact List.mem_cons_self _ _)
  have hfinal : (culturalSitesFetch backend
      (culturalSitesRun backend (emptyJsMap α) (x0 :: xtl)) x).cache.entries
      = xtl.map (fun q => (jsonStringify q, backend q))
        ++ [(jsonStringify x, backend x)] := by
    unfold culturalSitesFetch
    rw [hgetx]
    show (evictIfOver10 ((culturalSitesRun backend (emptyJsMap α) (x0 :: xtl)).set
        (jsonStringify x) (backend x))).entries = _
    rw [set_of_get?_none _ _ _ hgetx, h10]
    unfold evictIfOver10
    rw [if_pos (by
      unfold JsMap.size
      rw [List.length_append]
      simp only [List.length_map, List.length_cons, List.length_nil, hxtl]
      omega)]
    rw [List.map_cons, List.cons_append]
    show ((if jsonStringify x0 = "" then
        (⟨(jsonStringify x0, backend x0) ::
          (xtl.map (fun q => (jsonStringify q, backend q))
            ++ [(jsonStringify x, backend x)])⟩ : JsMap α)
      else (⟨(jsonStringify x0, backend x0) ::
          (xtl.map (fun q => (jsonStringify q, backend q))
            ++ [(jsonStringify x, backend x)])⟩ : JsMap α).del
          (jsonStringify x0))).entries = _
    rw [if_neg (jsonStringify_ne_empty x0)]
    unfold JsMap.del
    rw [List.eraseP_cons_of_pos (by simp)]
  have hrun : (culturalSitesRun backend (emptyJsMap α) ((x0 :: xtl) ++ [x])).entries
      = xtl.map (fun q => (jsonStringify q, backend q))
        ++ [(jsonStringify x, backend x)] := by
    rw [culturalSitesRun_append]
    exact hfinal
  refine ⟨?_, ?_, culturalSitesFetch_capacity backend c p hk hle⟩
  · unfold JsMap.keys
    rw [hrun]
    simp [List.map_append, List.map_map, Function.comp]
  · unfold JsMap.size
    rw [hrun]
    rw [List.length_append]
    simp [hxtl]

/-- C5 witness: eleven concrete parameter objects with distinct serialized
keys, starting from the empty cache. -/
theorem useCulturalSites_capacity10_evicts_oldest_witness :
    (elevenParams.length = 11 ∧ (elevenParams.map jsonStringify).Nodup ∧
     "" ∉ (emptyJsMap (List Nat)).keys ∧ (emptyJsMap (List Nat)).size ≤ 10) ∧
    ((culturalSitesRun (fun _ => ([] : List Nat)) (emptyJsMap (List Nat))
        elevenParams).keys = (elevenParams.map jsonStringify).drop 1 ∧
     (culturalSitesRun (fun _ => ([] : List Nat)) (emptyJsMap (List Nat))
        elevenParams).size = 10 ∧
     (culturalSitesFetch (fun _ => ([] : List Nat)) (emptyJsMap (List Nat))
        (JsValue.obj [("q", JsValue.str "z")])).cache.size ≤ 10) :=
  ⟨⟨rfl, by decide, by decide, by decide⟩,
   useCulturalSites_capacity10_evicts_oldest (List Nat) (fun _ => [])
     elevenParams (emptyJsMap (List Nat)) (JsValue.obj [("q", JsValue.str "z")])
     rfl (by decide) (by decide) (by decide)⟩

/-! ## Non-negativity of the haversine-style distance -/

theorem atan2_nonneg (y x : ℝ) (hy : 0 ≤ y) : 0 ≤ atan2 y x := by
  unfold atan2
  have hpi := Real.pi_pos
  split_ifs with h1 h2 h3 h4
  · have hm := Real.arctan_strictMono.monotone
      (show (0 : ℝ) ≤ y / x from div_nonneg hy h1.le)
    rwa [Real.arctan_zero] at hm
  · have ha := Real.neg_pi_div_two_lt_arctan (y / x)
    linarith
  · linarith
  · exact absurd hy (not_le.mpr h4)
  · exact le_refl 0

theorem calculateDistance_nonneg (lat1 lng1 lat2 lng2 : ℝ) :
    0 ≤ calculateDistance lat1 lng1 lat2 lng2 := by
  unfold calculateDistance
  exact mul_nonneg (by norm_num)
    (mul_nonneg (by norm_num) (atan2_nonneg _ _ (Real.sqrt_nonneg _)))

/-! ## Theorems for C4 and C8 -/

theorem findParkingNearSites_eq_build (oracle : NearbyOracle) (radiusKm : ℝ)
    (parkingTypes : Option (List String)) (sites : List CulturalSite) :
    findParkingNearSites oracle sites radiusKm parkingTypes
      = (buildParkingResult (dedupParking
          (collectNearby oracle radiusKm parkingTypes sites).1),
         (collectNearby oracle radiusKm parkingTypes sites).2) := by
  cases sites with
  | nil => rfl
  | cons a l => rfl

/-- C4: when two distinct sites A and B each get parking lot P back from
their nearby query, the aggregate reports P exactly once in `parkingLots`
and exactly one connection record per (site, lot) association — one for A
and one for B, carrying the client-side distances — and both distances are
non-negative. -/
theorem findParkingNearSites_dedups_and_connects
    (oracle : NearbyOracle) (radiusKm : ℝ) (A B : CulturalSite) (P : ParkingLot)
    (lngA latA lngB latB lngP latP : ℝ)
    (hA : A.location = some ⟨(lngA, latA)⟩)
    (hB : B.location = some ⟨(lngB, latB)⟩)
    (hP : P.location = some ⟨(lngP, latP)⟩)
    (hAB : A.id ≠ B.id)
    (hOA : oracle latA lngA (radiusKm * 1000) 20 = Except.ok [P])
    (hOB : oracle latB lngB (radiusKm * 1000) 20 = Except.ok [P]) :
    (findParkingNearSites oracle [A, B] radiusKm none).1.parkingLots = [P] ∧
    (findParkingNearSites oracle [A, B] radiusKm none).1.connections
      = [⟨A.id, P.id, calculateDistance latA lngA latP lngP * 1000⟩,
         ⟨B.id, P.id, calculateDistance latB lngB latP lngP * 1000⟩] ∧
    0 ≤ calculateDistance latA lngA latP lngP * 1000 ∧
    0 ≤ calculateDistance latB lngB latP lngP * 1000 := by
  have hcollect : collectNearby oracle radiusKm none [A, B]
      = ([⟨P, A.id, calculateDistance latA lngA latP lngP * 1000⟩,
          ⟨P, B.id, calculateDistance latB lngB latP lngP * 1000⟩],
         [⟨latA, lngA, radiusKm * 1000, 20⟩, ⟨latB, lngB, radiusKm * 1000, 20⟩]) := by
    simp only [collectNearby, hA, hB]
    simp only [hOA, hOB]
    simp only [processSiteLots, parkingTypeRejected, hP]
    rfl
  rw [findParkingNearSites_eq_build, hcollect]
  have hdedup : dedupParking
      [⟨P, A.id, calculateDistance latA lngA latP lngP * 1000⟩,
       ⟨P, B.id, calculateDistance latB lngB latP lngP * 1000⟩]
      = [⟨P.id, P, [(A.id, calculateDistance latA lngA latP lngP * 1000),
          (B.id, calculateDistance latB lngB latP lngP * 1000)]⟩] := by
    simp [dedupParking, addCand]
  rw [hdedup]
  refine ⟨rfl, rfl, ?_, ?_⟩ <;>
    exact mul_nonneg (calculateDistance_nonneg _ _ _ _) (by norm_num)

/-- C4 witness: two concrete distinct sites at the origin, an oracle that
returns the one parking lot `lotP` for every nearby query. -/
theorem findParkingNearSites_dedups_and_connects_witness :
    (siteA.location = some ⟨((0 : ℝ), (0 : ℝ))⟩ ∧
     siteB.location = some ⟨((0 : ℝ), (0 : ℝ))⟩ ∧
     lotP.location = some ⟨((0 : ℝ), (0 : ℝ))⟩ ∧
     siteA.id ≠ siteB.id ∧
     oracleP 0 0 ((1 : ℝ) * 1000) 20 = Except.ok [lotP] ∧
     oracleP 0 0 ((1 : ℝ) * 1000) 20 = Except.ok [lotP]) ∧
    ((findParkingNearSites oracleP [siteA, siteB] 1 none).1.parkingLots = [lotP] ∧
     (findParkingNearSites oracleP [siteA, siteB] 1 none).1.connections
       = [⟨siteA.id, lotP.id, calculateDistance 0 0 0 0 * 1000⟩,
          ⟨siteB.id, lotP.id, calculateDistance 0 0 0 0 * 1000⟩] ∧
     0 ≤ calculateDistance 0 0 0 0 * 1000 ∧
     0 ≤ calculateDistance 0 0 0 0 * 1000) :=
  ⟨⟨rfl, rfl, rfl, by decide, rfl, rfl⟩,
   findParkingNearSites_dedups_and_connects oracleP 1 siteA siteB lotP
     0 0 0 0 0 0 rfl rfl rfl (by decide) rfl rfl⟩

theorem collectNearby_all_fail (oracle : NearbyOracle) (radiusKm : ℝ)
    (parkingTypes : Option (List String))
    (hfail : ∀ (a b r : ℝ) (n : Nat) (lots : List ParkingLot),
      oracle a b r n ≠ Except.ok lots) :
    ∀ sites, (collectNearby oracle radiusKm parkingTypes sites).1 = [] := by
  intro sites
  induction sites with
  | nil => rfl
  | cons s rest ih =>
    cases hs : s.location with
    | none => simp [collectNearby, hs, ih]
    | some loc =>
      rcases ho : oracle loc.coordinates.2 loc.coordinates.1 (radiusKm * 1000) 20
        with e | lots
      · simp [collectNearby, hs, ho, ih]
      · exact absurd ho (hfail _ _ _ _ lots)

theorem collectNearby_no_coords (oracle : NearbyOracle) (radiusKm : ℝ)
    (parkingTypes : Option (List String)) :
    ∀ sites, (∀ t ∈ sites, t.location = none) →
      collectNearby oracle radiusKm parkingTypes sites = ([], []) := by
  intro sites
  induction sites with
  | nil => intro _; rfl
  | cons s rest ih =>
    intro h
    have hs := h s (List.mem_cons_self s rest)
    simp [collectNearby, hs, ih (fun t ht => h t (List.mem_cons_of_mem s ht))]

/-- C8: the aggregator never fails.  A site without a usable coordinate pair
is skipped outright (no query, no error, identical outcome); a site whose
nearby query fails is logged and skipped, processing continuing with the
remaining sites (identical result); an oracle that always fails yields the
empty result; and an input list in which no site has coordinates yields the
empty result with no query issued. -/
theorem findParkingNearSites_error_resilient
    (oracle : NearbyOracle) (radiusKm : ℝ) (parkingTypes : Option (List String))
    (s : CulturalSite) (rest sites : List CulturalSite) (loc : GeoLoc)
    (msg : String) :
    (s.location = none →
      findParkingNearSites oracle (s :: rest) radiusKm parkingTypes
        = findParkingNearSites oracle rest radiusKm parkingTypes) ∧
    (s.location = some loc →
      oracle loc.coordinates.2 loc.coordinates.1 (radiusKm * 1000) 20
        = Except.error msg →
      (findParkingNearSites oracle (s :: rest) radiusKm parkingTypes).1
        = (findParkingNearSites oracle rest radiusKm parkingTypes).1) ∧
    ((∀ (a b r : ℝ) (n : Nat) (lots : List ParkingLot),
        oracle a b r n ≠ Except.ok lots) →
      (findParkingNearSites oracle sites radiusKm parkingTypes).1 = ⟨[], []⟩) ∧
    ((∀ t ∈ sites, t.location = none) →
      findParkingNearSites oracle sites radiusKm parkingTypes = (⟨[], []⟩, [])) := by
  refine ⟨?_, ?_, ?_, ?_⟩
  · intro h
    rw [findParkingNearSites_eq_build, findParkingNearSites_eq_build]
    have hc : collectNearby oracle radiusKm parkingTypes (s :: rest)
        = collectNearby oracle radiusKm parkingTypes rest := by
      simp [collectNearby, h]
    rw [hc]
  · intro hloc herr
    rw [findParkingNearSites_eq_build, findParkingNearSites_eq_build]
    have hc : (collectNearby oracle radiusKm parkingTypes (s :: rest)).1
        = (collectNearby oracle radiusKm parkingTypes rest).1 := by
      simp [collectNearby, hloc, herr]
    simp only [hc]
  · intro hfail
    rw [findParkingNearSites_eq_build]
    rw [collectNearby_all_fail oracle radiusKm parkingTypes hfail sites]
    rfl
  · intro h
    rw [findParkingNearSites_eq_build,
      collectNearby_no_coords oracle radiusKm parkingTypes sites h]
    rfl

/-- C8 witness: a coordinate-less site is skipped; with an always-failing
oracle a coordinate-bearing site's failing query is survived and the total
failure yields the empty result. -/
theorem findParkingNearSites_error_resilient_witness :
    (findParkingNearSites oracleDown [siteNoCoords] 1 none
       = findParkingNearSites oracleDown [] 1 none) ∧
    ((findParkingNearSites oracleDown [siteA] 1 none).1
       = (findParkingNearSites oracleDown [] 1 none).1) ∧
    ((findParkingNearSites oracleDown [siteA, siteNoCoords] 1 none).1
       = ⟨[], []⟩) ∧
    (findParkingNearSites oracleDown [siteNoCoords] 1 none = (⟨[], []⟩, [])) := by
  have T1 := findParkingNearSites_error_resilient oracleDown 1 none
    siteNoCoords [] [siteA, siteNoCoords] ⟨((0 : ℝ), (0 : ℝ))⟩ "offline"
  have T2 := findParkingNearSites_error_resilient oracleDown 1 none
    siteA [] [siteNoCoords] ⟨((0 : ℝ), (0 : ℝ))⟩ "offline"
  refine ⟨T1.1 rfl, T2.2.1 rfl rfl, T1.2.2.1 ?_, T2.2.2.2 ?_⟩
  · intro a b r n lots h
    exact Except.noConfusion h
  · intro t ht
    rw [List.mem_singleton.mp ht]
    rfl

end ChemnitzMap
